import Mathlib

/-!
Shallow embedding of the OutfitRecommendationService
(`src/server/services/outfitRecommendationService.ts`) of the OutfAI
repository, with theorems settling the stated properties of its context
filter, candidate generator, scorer and ranker.

Modelling conventions:
* TypeScript strings are Lean `String`s; `String.prototype.includes` is
  `strIncludes` and `String.prototype.toLowerCase` is `lowerStr` (ASCII
  lowering, which covers every literal the service compares against).
* A `Record<K, V>` read `m[k]`, which yields `undefined` on a missing key,
  is a Lean function into `Option`.
* Optional request fields are `Option`s; the JavaScript falsy-default
  idioms `input.mood || "casual"` and `input.limitCount || 6` are `effMood`
  and `effLimit` (for strings the empty string is falsy, for numbers 0 is).
* `Array.prototype.sort` with comparator `(a, b) => b.score - a.score` is,
  per ECMAScript 2019, a stable sort putting higher scores first; it is
  modelled by Mathlib's `List.insertionSort` (which is stable) under the
  relation `scoreGe`.
* `Date.now()` / `new Date()` are an explicit `now : Nat` parameter; the
  engine is otherwise pure.
* Scores are `Nat` (every contribution in the source is a non-negative
  integer); temperatures are `Int`.
* `Garment` keeps exactly the fields the engine reads (`id`, `category`,
  `primaryColor`, `material`, `season`, `tags`); the remaining declared
  fields (`userId`, `name`, `secondaryColor`, `imageUrl`, `createdAt`) are
  never read by the service and are omitted.
-/

/-- Whether the pattern (first argument) starts the given character list. -/
def leadsWith : List Char → List Char → Bool
  | [], _ => true
  | _ :: _, [] => false
  | p :: ps, h :: hs => p == h && leadsWith ps hs

/-- Whether the pattern occurs as a contiguous run somewhere in the list. -/
def hasSub (pat : List Char) : List Char → Bool
  | [] => leadsWith pat []
  | h :: hs => leadsWith pat (h :: hs) || hasSub pat hs

/-- JavaScript `hay.includes(pat)` (substring containment). -/
def strIncludes (hay pat : String) : Bool :=
  hasSub pat.data hay.data

/-- JavaScript `s.toLowerCase()` restricted to ASCII letters. -/
def lowerStr (s : String) : String :=
  String.mk (s.data.map Char.toLower)

/-- A wardrobe item, with the fields the recommendation engine reads. -/
structure Garment where
  id : String
  category : String
  primaryColor : String
  material : Option String
  season : String
  tags : List String
deriving DecidableEq

/-- The `RecommendationInput` request shape. -/
structure RecommendationInput where
  userId : String
  mood : Option String
  weather : Option String
  temperature : Option Int
  occasion : Option String
  limitCount : Option Nat
deriving DecidableEq

/-- The engine-internal `OutfitCandidate` shape. -/
structure OutfitCandidate where
  garmentIds : List String
  score : Nat
  reasons : List String
deriving DecidableEq

/-- The returned `Outfit` shape. -/
structure Outfit where
  id : String
  userId : String
  garmentIds : List String
  contextWeather : Option String
  contextMood : Option String
  explanation : String
  score : Nat
  createdAt : Nat
deriving DecidableEq

/-- The `RecommendationOutput` shape. -/
structure RecommendationOutput where
  outfits : List Outfit
  explanation : String
  totalGenerated : Nat
deriving DecidableEq

/-- The `weatherSeasonMap` record of `isSeasonAppropriate`; an unknown
weather key reads as `undefined`, hence `none`. -/
def weatherSeasonMap : String → Option (List String)
  | "sunny" => some ["spring", "summer", "all-season"]
  | "cloudy" => some ["spring", "summer", "fall", "all-season"]
  | "rainy" => some ["spring", "fall", "winter", "all-season"]
  | "snowy" => some ["winter", "all-season"]
  | "windy" => some ["fall", "winter", "all-season"]
  | "hot" => some ["summer", "all-season"]
  | "cold" => some ["winter", "all-season"]
  | _ => none

/-- `isSeasonAppropriate(garmentSeason, weather, temperature?)`; the
temperature parameter is declared but never used by the source body. -/
def isSeasonAppropriate (garmentSeason : String) (weather : String)
    (_temperature : Option Int) : Bool :=
  if garmentSeason == "all-season" then true
  else
    match weatherSeasonMap weather with
    | some seasons => seasons.contains garmentSeason
    | none => false

/-- `isTemperatureAppropriate(garment, temperature)`. -/
def isTemperatureAppropriate (garment : Garment) (temperature : Int) : Bool :=
  let material := lowerStr (garment.material.getD "")
  let category := garment.category
  if temperature > 25 then
    if category == "outerwear" || strIncludes material "wool"
        || strIncludes material "fleece" then
      false
    else
      true
  else if temperature < 10 then
    (["wool", "fleece", "down", "synthetic"].any fun m => strIncludes material m)
      || category == "outerwear"
  else
    true

/-- `filterByContext(garments, input)`: the season check runs only when a
truthy weather is present, the temperature check only when a temperature is
present; both are conjunctive. -/
def filterByContext (garments : List Garment) (input : RecommendationInput) :
    List Garment :=
  garments.filter fun garment =>
    (match input.weather with
      | some w => if w == "" then true
          else isSeasonAppropriate garment.season w input.temperature
      | none => true)
    && (match input.temperature with
      | some t => isTemperatureAppropriate garment t
      | none => true)

/-- The category list read back from `groupByCategory` with the `|| []`
default used at every read site: `groupByCategory` pushes each garment onto
its category bucket in input order, so the bucket for `c` is exactly the
subsequence of garments whose category is `c`. -/
def categoryGroup (garments : List Garment) (c : String) : List Garment :=
  garments.filter fun g => g.category == c

/-- `scoreColorHarmony(garments)`. -/
def scoreColorHarmony (garments : List Garment) : Nat :=
  if garments.length < 2 then 0
  else
    let colors := garments.map fun g => lowerStr g.primaryColor
    let complementaryPairs : List (String × String) :=
      [("blue", "orange"), ("red", "green"), ("yellow", "purple")]
    let pairBonus := complementaryPairs.foldl
      (fun acc p => if colors.contains p.1 && colors.contains p.2 then acc + 15 else acc) 0
    let monoBonus :=
      if colors.all fun c => c == colors.headD "" then pairBonus + 10 else pairBonus
    let neutrals := ["black", "white", "gray", "beige", "navy"]
    let neutralCount := (colors.filter fun c => neutrals.contains c).length
    let harmonyScore :=
      if colors.length - 1 ≤ neutralCount then monoBonus + 8 else monoBonus
    min harmonyScore 20

/-- The `moodTags` record of `scoreMoodAlignment`. -/
def moodTags : String → Option (List String)
  | "casual" => some ["cotton", "denim", "relaxed"]
  | "formal" => some ["silk", "wool", "structured"]
  | "adventurous" => some ["bold", "colorful", "unique"]
  | "cozy" => some ["fleece", "warm", "soft"]
  | "energetic" => some ["bright", "bold", "dynamic"]
  | "minimalist" => some ["neutral", "simple", "clean"]
  | "bold" => some ["vibrant", "statement", "eye-catching"]
  | _ => none

/-- `scoreMoodAlignment(garments, mood)`. -/
def scoreMoodAlignment (garments : List Garment) (mood : String) : Nat :=
  let targetTags := (moodTags mood).getD []
  let score := garments.foldl
    (fun acc garment =>
      let garmentTags :=
        lowerStr (garment.material.getD "") :: garment.tags.map lowerStr
      let matchCount :=
        (garmentTags.filter fun t =>
          targetTags.any fun target => strIncludes t target).length
      acc + matchCount * 3)
    0
  min score 20

/-- The `styleKeywords` list of `scoreStyleCoherence`. -/
def styleKeywords : List String :=
  ["minimalist", "bold", "classic", "trendy", "avant-garde", "casual"]

/-- The `extractStyles` helper of `scoreStyleCoherence` (substring match of
each keyword inside each tag). -/
def extractStyles (tags : List String) : List String :=
  tags.filter fun tag => styleKeywords.any fun keyword => strIncludes tag keyword

/-- Whether `allStyles.filter((style, index) =>
allStyles.slice(index + 1).includes(style))` is non-empty, i.e. some style
occurs again later in the list. -/
def hasRepeatedStyle : List String → Bool
  | [] => false
  | s :: rest => rest.contains s || hasRepeatedStyle rest

/-- `scoreStyleCoherence(garments)`. -/
def scoreStyleCoherence (garments : List Garment) : Nat :=
  if garments.length < 2 then 0
  else
    let allStyles := garments.flatMap fun g => extractStyles g.tags
    if allStyles.length == 0 then 5
    else if hasRepeatedStyle allStyles then 15
    else
      let hasMinimalist := allStyles.any fun s => strIncludes s "minimalist"
      let hasBold := allStyles.any fun s => strIncludes s "bold"
      let hasClassic := allStyles.any fun s => strIncludes s "classic"
      if (hasMinimalist && hasClassic) || (hasBold && hasClassic) then 10
      else 5

/-- The `moodToOccasion` record of `scoreOccasionMatching`. -/
def moodToOccasion : String → Option (List String)
  | "casual" => some ["casual", "weekend"]
  | "formal" => some ["formal", "work", "night"]
  | "adventurous" => some ["weekend", "casual"]
  | "cozy" => some ["casual", "weekend"]
  | "energetic" => some ["casual", "work"]
  | "minimalist" => some ["work", "smart-casual", "formal"]
  | "bold" => some ["night", "weekend", "casual"]
  | _ => none

/-- The fixed occasion vocabulary used by the scorer and reason generator. -/
def occasionVocab : List String :=
  ["casual", "formal", "work", "smart-casual", "night", "weekend"]

/-- `scoreOccasionMatching(garments, mood)`. -/
def scoreOccasionMatching (garments : List Garment) (mood : String) : Nat :=
  let targetOccasions := (moodToOccasion mood).getD []
  if targetOccasions.length == 0 then 0
  else
    let matchScore := garments.foldl
      (fun acc garment =>
        let garmentOccasions := garment.tags.filter fun tag => occasionVocab.contains tag
        let matchCount :=
          (garmentOccasions.filter fun occ => targetOccasions.contains occ).length
        acc + matchCount * 2)
      0
    min matchScore 12

/-- `scoreVersatility(garments)`. -/
def scoreVersatility (garments : List Garment) : Nat :=
  let versatilityScore := garments.foldl
    (fun acc garment =>
      if garment.tags.contains "versatile-high" then acc + 2
      else if garment.tags.contains "versatile-medium" then acc + 1
      else acc)
    0
  min versatilityScore 8

/-- `scoreDiversity(garments)`. -/
def scoreDiversity (garments : List Garment) : Nat :=
  if garments.length ≥ 3 then 10 else 5

/-- `scoreOutfit(garments, mood, allGarments)`; the third parameter is
declared but never used by the source body. -/
def scoreOutfit (garments : List Garment) (mood : String)
    (_allGarments : List Garment) : Nat :=
  let score := 50 + scoreColorHarmony garments + scoreMoodAlignment garments mood
    + scoreStyleCoherence garments + scoreOccasionMatching garments mood
    + scoreVersatility garments + scoreDiversity garments
  min score 100

/-- The neutral color list of the reason generator. -/
def neutralColors : List String := ["black", "white", "gray", "navy", "beige"]

/-- JavaScript `[...new Set(l)]`: deduplication keeping first occurrences. -/
def dedupKeepFirst (l : List String) : List String :=
  l.foldl (fun acc x => if acc.contains x then acc else acc ++ [x]) []

/-- The style vocabulary of the reason generator (exact tag membership,
unlike the substring matching of `scoreStyleCoherence`, and without
"casual"). -/
def reasonStyleSet : List String :=
  ["minimalist", "bold", "classic", "trendy", "avant-garde"]

/-- The `moodDescriptions` record of `generateReasons`. -/
def moodDescriptions : String → Option String
  | "casual" => some "Perfect for a relaxed day"
  | "formal" => some "Polished and professional"
  | "adventurous" => some "Ready for an adventure"
  | "cozy" => some "Comfortable and warm"
  | "energetic" => some "Energizing and uplifting"
  | "minimalist" => some "Clean and simple"
  | "bold" => some "Statement-making outfit"
  | _ => none

/-- `generateReasons(garments, mood)`. -/
def generateReasons (garments : List Garment) (mood : String) : List String :=
  let r1 :=
    if garments.length ≥ 3 then
      ["Well-balanced outfit with " ++ toString garments.length ++ " pieces"]
    else []
  let hasNeutral := garments.any fun g => neutralColors.contains (lowerStr g.primaryColor)
  let r2 := if hasNeutral then ["Neutral base for easy coordination"] else []
  let allStyles := garments.flatMap fun g => g.tags.filter fun t => reasonStyleSet.contains t
  let uniqueStyles := dedupKeepFirst allStyles
  let r3 :=
    if uniqueStyles.length == 1 then
      ["Cohesive " ++ uniqueStyles.headD "" ++ " aesthetic"]
    else if uniqueStyles.contains "classic"
        && (uniqueStyles.contains "bold" || uniqueStyles.contains "minimalist") then
      ["Classic foundation with modern twist"]
    else []
  let allOccasions := garments.flatMap fun g => g.tags.filter fun t => occasionVocab.contains t
  let commonOccasions := dedupKeepFirst allOccasions
  let r4 :=
    if commonOccasions.contains "formal" then ["Polished and put-together"]
    else if commonOccasions.contains "casual" then ["Comfortable and approachable"]
    else []
  let versatilePieces := (garments.filter fun g => g.tags.contains "versatile-high").length
  let r5 := if versatilePieces ≥ 2 then ["Mix-and-match friendly pieces"] else []
  (r1 ++ r2 ++ r3 ++ r4 ++ r5) ++ [(moodDescriptions mood).getD "Well-coordinated look"]

/-- The placeholder object `{ id: "barefoot", category: "shoes" }` used when
no shoes exist; the other fields are never read because the `isBarefoot`
test removes the placeholder before any scoring. -/
def barefootShoe : Garment :=
  { id := "barefoot", category := "shoes", primaryColor := "", material := none,
    season := "", tags := [] }

/-- The body of the double loop of `generateCandidates` for one (top,
bottom) pair: one candidate per shoe to try (the barefoot placeholder when
no shoes exist), then one candidate per accessory among the first two, each
using the first shoe if any. -/
def candidatesForPair (garments shoes accessories : List Garment)
    (top bottom : Garment) (mood : String) : List OutfitCandidate :=
  let shoesToTry := if shoes.length == 0 then [barefootShoe] else shoes
  let shoeCands := shoesToTry.map fun shoe =>
    let isBarefoot := shoe.id == "barefoot"
    let garmentIds :=
      if isBarefoot then [top.id, bottom.id] else [top.id, bottom.id, shoe.id]
    let outfitPieces := if isBarefoot then [top, bottom] else [top, bottom, shoe]
    { garmentIds := garmentIds,
      score := scoreOutfit outfitPieces mood garments,
      reasons := generateReasons outfitPieces mood }
  let accCands := (accessories.take 2).map fun accessory =>
    let garmentIds :=
      [top.id, bottom.id] ++ (shoes.take 1).map (fun s => s.id) ++ [accessory.id]
    let pieces := [top, bottom] ++ shoes.take 1 ++ [accessory]
    { garmentIds := garmentIds,
      score := scoreOutfit pieces mood garments,
      reasons := generateReasons pieces mood }
  shoeCands ++ accCands

/-- `generateCandidates(garments, mood)`. -/
def generateCandidates (garments : List Garment) (mood : String) :
    List OutfitCandidate :=
  let tops := categoryGroup garments "tops"
  let bottoms := categoryGroup garments "bottoms"
  let shoes := categoryGroup garments "shoes"
  let accessories := categoryGroup garments "accessories"
  if tops.length == 0 || bottoms.length == 0 then []
  else
    tops.flatMap fun top =>
      bottoms.flatMap fun bottom =>
        candidatesForPair garments shoes accessories top bottom mood

/-- The order the comparator `(a, b) => b.score - a.score` sorts by. -/
def scoreGe (a b : OutfitCandidate) : Prop := b.score ≤ a.score

instance : DecidableRel scoreGe :=
  fun a b => (inferInstance : Decidable (b.score ≤ a.score))

instance : IsTotal OutfitCandidate scoreGe :=
  ⟨fun a b => Nat.le_total b.score a.score⟩

instance : IsTrans OutfitCandidate scoreGe :=
  ⟨fun _ _ _ h1 h2 => Nat.le_trans h2 h1⟩

/-- `candidates.sort((a, b) => b.score - a.score)`: a stable descending
sort by score. -/
def sortCandidates (candidates : List OutfitCandidate) : List OutfitCandidate :=
  List.insertionSort scoreGe candidates

/-- The ranking chain `sort(...).filter(score >= 60).slice(0, limit)` with
the minimum score threshold of 60. -/
def rankCandidates (candidates : List OutfitCandidate) (limit : Nat) :
    List OutfitCandidate :=
  ((sortCandidates candidates).filter fun c => decide (60 ≤ c.score)).take limit

/-- The mood actually handed to the generator: `input.mood || "casual"`. -/
def effMood (input : RecommendationInput) : String :=
  match input.mood with
  | some m => if m == "" then "casual" else m
  | none => "casual"

/-- The slice bound actually used: `input.limitCount || 6`. -/
def effLimit (input : RecommendationInput) : Nat :=
  match input.limitCount with
  | some k => if k == 0 then 6 else k
  | none => 6

/-- `generateExplanation(input)`. -/
def generateExplanation (input : RecommendationInput) : String :=
  let parts : List String :=
    (match input.weather with
      | some w => if w == "" then [] else ["Recommended for " ++ w ++ " weather"]
      | none => [])
    ++ (match input.mood with
      | some m => if m == "" then [] else ["with a " ++ m ++ " vibe"]
      | none => [])
    ++ (match input.temperature with
      | some t => ["(" ++ toString t ++ "°C)"]
      | none => [])
  if parts.length == 0 then "Outfit recommendations based on your wardrobe."
  else
    "Outfit recommendations " ++ String.intercalate " " parts
      ++ ". Mix and match pieces or shuffle for more options."

/-- The `rankedCandidates.map((candidate, index) => ...)` materialization
step, with the timestamp made explicit. -/
def stampOutfits (now : Nat) (input : RecommendationInput) :
    Nat → List OutfitCandidate → List Outfit
  | _, [] => []
  | index, candidate :: rest =>
    { id := "outfit-" ++ toString now ++ "-" ++ toString index,
      userId := input.userId,
      garmentIds := candidate.garmentIds,
      contextWeather := input.weather,
      contextMood := input.mood,
      explanation := String.intercalate " • " candidate.reasons,
      score := candidate.score,
      createdAt := now } :: stampOutfits now input (index + 1) rest

/-- `generateOutfits(garments, input)` with the timestamp source as an
explicit first parameter. -/
def generateOutfits (now : Nat) (garments : List Garment)
    (input : RecommendationInput) : RecommendationOutput :=
  if garments.length == 0 then
    { outfits := [],
      explanation := "No garments found in wardrobe. Please add items first.",
      totalGenerated := 0 }
  else
    let filteredGarments := filterByContext garments input
    if filteredGarments.length == 0 then
      { outfits := [],
        explanation := "No suitable outfits found for the current weather and mood combination.",
        totalGenerated := 0 }
    else
      let candidates := generateCandidates filteredGarments (effMood input)
      let rankedCandidates := rankCandidates candidates (effLimit input)
      if rankedCandidates.length == 0 then
        { outfits := [],
          explanation := "No high-quality outfit combinations found. Try adjusting your mood, weather, or add more items to your closet.",
          totalGenerated := 0 }
      else
        let outfits := stampOutfits now input 0 rankedCandidates
        { outfits := outfits,
          explanation := generateExplanation input,
          totalGenerated := outfits.length }

/-! Concrete values used to instantiate the theorems below. -/

/-- A plain blue summer top. -/
def topG : Garment :=
  { id := "t1", category := "tops", primaryColor := "blue", material := none,
    season := "summer", tags := [] }

/-- A plain orange all-season bottom. -/
def bottomG : Garment :=
  { id := "b1", category := "bottoms", primaryColor := "orange", material := none,
    season := "all-season", tags := [] }

/-- A two-item wardrobe: one top and one bottom. -/
def demoGarments : List Garment := [topG, bottomG]

/-- A shoes-only wardrobe item. -/
def shoeOnly : Garment :=
  { id := "s1", category := "shoes", primaryColor := "white", material := none,
    season := "summer", tags := [] }

/-- A request with no contextual signals at all. -/
def inpPlain : RecommendationInput :=
  { userId := "u", mood := none, weather := none, temperature := none,
    occasion := none, limitCount := none }

/-- A request whose weather value lies outside the documented enumeration. -/
def inpUnknownWeather : RecommendationInput :=
  { userId := "u", mood := none, weather := some "apocalyptic", temperature := none,
    occasion := none, limitCount := none }

/-- A request with mood "cozy". -/
def inpCozy : RecommendationInput :=
  { userId := "u", mood := some "cozy", weather := none, temperature := none,
    occasion := none, limitCount := none }

/-- The documented mood enumeration. -/
def knownMoods : List String :=
  ["casual", "formal", "adventurous", "cozy", "energetic", "minimalist", "bold"]

/-- The documented weather enumeration. -/
def knownWeathers : List String :=
  ["sunny", "cloudy", "rainy", "snowy", "windy", "hot", "cold"]

/-! Helper lemmas. -/

theorem generateOutfits_eq (now : Nat) (garments : List Garment)
    (input : RecommendationInput) :
    generateOutfits now garments input =
      if garments.length == 0 then
        { outfits := [],
          explanation := "No garments found in wardrobe. Please add items first.",
          totalGenerated := 0 }
      else if (filterByContext garments input).length == 0 then
        { outfits := [],
          explanation := "No suitable outfits found for the current weather and mood combination.",
          totalGenerated := 0 }
      else if (rankCandidates
          (generateCandidates (filterByContext garments input) (effMood input))
          (effLimit input)).length == 0 then
        { outfits := [],
          explanation := "No high-quality outfit combinations found. Try adjusting your mood, weather, or add more items to your closet.",
          totalGenerated := 0 }
      else
        { outfits := stampOutfits now input 0 (rankCandidates
            (generateCandidates (filterByContext garments input) (effMood input))
            (effLimit input)),
          explanation := generateExplanation input,
          totalGenerated := (stampOutfits now input 0 (rankCandidates
            (generateCandidates (filterByContext garments input) (effMood input))
            (effLimit input))).length } := rfl

theorem stampOutfits_length (now : Nat) (input : RecommendationInput) :
    ∀ (i : Nat) (l : List OutfitCandidate),
      (stampOutfits now input i l).length = l.length := by
  intro i l
  induction l generalizing i with
  | nil => rfl
  | cons c cs ih => simp [stampOutfits, ih]

theorem stampOutfits_map_core (now : Nat) (input : RecommendationInput) :
    ∀ (i : Nat) (l : List OutfitCandidate),
      (stampOutfits now input i l).map (fun o => (o.garmentIds, o.score))
        = l.map fun c => (c.garmentIds, c.score) := by
  intro i l
  induction l generalizing i with
  | nil => rfl
  | cons c cs ih => simp [stampOutfits, ih]

theorem stampOutfits_map_score (now : Nat) (input : RecommendationInput) :
    ∀ (i : Nat) (l : List OutfitCandidate),
      (stampOutfits now input i l).map (fun o => o.score)
        = l.map fun c => c.score := by
  intro i l
  induction l generalizing i with
  | nil => rfl
  | cons c cs ih => simp [stampOutfits, ih]

theorem stampOutfits_map_explanation (now : Nat) (input : RecommendationInput) :
    ∀ (i : Nat) (l : List OutfitCandidate),
      (stampOutfits now input i l).map (fun o => o.explanation)
        = l.map fun c => String.intercalate " • " c.reasons := by
  intro i l
  induction l generalizing i with
  | nil => rfl
  | cons c cs ih => simp [stampOutfits, ih]

theorem stampOutfits_mem (now : Nat) (input : RecommendationInput) :
    ∀ (i : Nat) (l : List OutfitCandidate) (o : Outfit),
      o ∈ stampOutfits now input i l →
      ∃ c ∈ l, o.garmentIds = c.garmentIds ∧ o.score = c.score := by
  intro i l
  induction l generalizing i with
  | nil => intro o h; cases h
  | cons c cs ih =>
    intro o h
    rcases List.mem_cons.mp h with h | h
    · subst h; exact ⟨c, List.mem_cons_self c cs, rfl, rfl⟩
    · obtain ⟨c', hc', h1, h2⟩ := ih (i + 1) o h
      exact ⟨c', List.mem_cons_of_mem c hc', h1, h2⟩

/-- Erase the two timestamp-derived fields of an outfit. -/
def eraseStamp (o : Outfit) : Outfit := { o with id := "", createdAt := 0 }

theorem stampOutfits_eraseStamp (n1 n2 : Nat) (input : RecommendationInput) :
    ∀ (i j : Nat) (l : List OutfitCandidate),
      (stampOutfits n1 input i l).map eraseStamp
        = (stampOutfits n2 input j l).map eraseStamp := by
  intro i j l
  induction l generalizing i j with
  | nil => rfl
  | cons c cs ih => simp [stampOutfits, eraseStamp, ih (i + 1) (j + 1)]

theorem mem_sortCandidates {c : OutfitCandidate} {l : List OutfitCandidate} :
    c ∈ sortCandidates l ↔ c ∈ l :=
  (List.perm_insertionSort scoreGe l).mem_iff

theorem sortCandidates_sorted (l : List OutfitCandidate) :
    List.Pairwise scoreGe (sortCandidates l) :=
  List.sorted_insertionSort scoreGe l

theorem rankCandidates_length_le (l : List OutfitCandidate) (limit : Nat) :
    (rankCandidates l limit).length ≤ limit := by
  simp only [rankCandidates, List.length_take]
  exact Nat.min_le_left _ _

theorem rankCandidates_score_ge (l : List OutfitCandidate) (limit : Nat)
    (c : OutfitCandidate) (hc : c ∈ rankCandidates l limit) : 60 ≤ c.score := by
  have h1 : c ∈ (sortCandidates l).filter fun c => decide (60 ≤ c.score) :=
    (List.take_sublist _ _).mem hc
  exact of_decide_eq_true (List.mem_filter.mp h1).2

theorem rankCandidates_pairwise (l : List OutfitCandidate) (limit : Nat) :
    List.Pairwise scoreGe (rankCandidates l limit) :=
  List.Pairwise.sublist (List.take_sublist _ _)
    ((sortCandidates_sorted l).filter _)

theorem rankCandidates_mem (l : List OutfitCandidate) (limit : Nat)
    (c : OutfitCandidate) (hc : c ∈ rankCandidates l limit) : c ∈ l := by
  have h1 := (List.take_sublist _ _).mem hc
  exact mem_sortCandidates.mp (List.mem_filter.mp h1).1

theorem mem_categoryGroup {g : Garment} {gs : List Garment} {c : String} :
    g ∈ categoryGroup gs c ↔ g ∈ gs ∧ g.category = c := by
  simp [categoryGroup, List.mem_filter]

theorem mem_filterByContext {g : Garment} {gs : List Garment}
    {input : RecommendationInput} (h : g ∈ filterByContext gs input) : g ∈ gs :=
  (List.mem_filter.mp h).1

theorem moodTags_eq_none {m : String} (hm : m ∉ knownMoods) : moodTags m = none := by
  unfold moodTags
  split <;> simp_all [knownMoods]

theorem moodToOccasion_eq_none {m : String} (hm : m ∉ knownMoods) :
    moodToOccasion m = none := by
  unfold moodToOccasion
  split <;> simp_all [knownMoods]

theorem weatherSeasonMap_eq_none {w : String} (hw : w ∉ knownWeathers) :
    weatherSeasonMap w = none := by
  unfold weatherSeasonMap
  split <;> simp_all [knownWeathers]

theorem foldl_acc_const {α : Type} : ∀ (l : List α) (n : Nat),
    l.foldl (fun acc _ => acc) n = n := by
  intro l
  induction l with
  | nil => intro n; rfl
  | cons a l ih => intro n; simp [List.foldl, ih n]

theorem scoreMoodAlignment_unknown (garments : List Garment) (m : String)
    (hm : m ∉ knownMoods) : scoreMoodAlignment garments m = 0 := by
  unfold scoreMoodAlignment
  rw [moodTags_eq_none hm]
  simp [foldl_acc_const]

theorem scoreOccasionMatching_unknown (garments : List Garment) (m : String)
    (hm : m ∉ knownMoods) : scoreOccasionMatching garments m = 0 := by
  unfold scoreOccasionMatching
  rw [moodToOccasion_eq_none hm]
  rfl

theorem generateReasons_getLast (garments : List Garment) (mood : String) :
    (generateReasons garments mood).getLast?
      = some ((moodDescriptions mood).getD "Well-coordinated look") :=
  List.getLast?_concat _

/-! Claim theorems. -/

/-- C2: for every candidate garment list of at least two resolved pieces and
every mood, the score computed by `scoreOutfit` lies between 50 and 100 (it
is a `Nat`, hence an integer). -/
theorem scoreOutfit_bounds (garments : List Garment) (mood : String)
    (allGarments : List Garment) (_h : 2 ≤ garments.length) :
    50 ≤ scoreOutfit garments mood allGarments
      ∧ scoreOutfit garments mood allGarments ≤ 100 := by
  simp only [scoreOutfit]
  omega

/-- Witness for `scoreOutfit_bounds` at a concrete two-piece candidate. -/
theorem scoreOutfit_bounds_inst :
    50 ≤ scoreOutfit [topG, bottomG] "casual" demoGarments
      ∧ scoreOutfit [topG, bottomG] "casual" demoGarments ≤ 100 :=
  scoreOutfit_bounds [topG, bottomG] "casual" demoGarments (by decide)

/-- C4: the temperature check admits a garment exactly as the specification
describes: above 25 degrees it excludes outerwear and wool/fleece materials,
below 10 degrees it admits only outerwear or wool/fleece/down/synthetic
materials, and in [10, 25] it admits everything. -/
theorem isTemperatureAppropriate_spec (g : Garment) (t : Int) :
    isTemperatureAppropriate g t =
      (if 25 < t then
        !(g.category == "outerwear"
          || strIncludes (lowerStr (g.material.getD "")) "wool"
          || strIncludes (lowerStr (g.material.getD "")) "fleece")
      else if t < 10 then
        g.category == "outerwear"
          || strIncludes (lowerStr (g.material.getD "")) "wool"
          || strIncludes (lowerStr (g.material.getD "")) "fleece"
          || strIncludes (lowerStr (g.material.getD "")) "down"
          || strIncludes (lowerStr (g.material.getD "")) "synthetic"
      else true) := by
  unfold isTemperatureAppropriate
  by_cases h1 : (25 : Int) < t
  · rw [if_pos h1, if_pos h1]
    cases hc : (g.category == "outerwear"
        || strIncludes (lowerStr (g.material.getD "")) "wool"
        || strIncludes (lowerStr (g.material.getD "")) "fleece") <;>
      simp_all
  · rw [if_neg h1, if_neg h1]
    by_cases h2 : t < 10
    · rw [if_pos h2, if_pos h2]
      cases ha : (g.category == "outerwear") <;>
        cases hw : strIncludes (lowerStr (g.material.getD "")) "wool" <;>
        cases hf : strIncludes (lowerStr (g.material.getD "")) "fleece" <;>
        cases hd : strIncludes (lowerStr (g.material.getD "")) "down" <;>
        cases hs : strIncludes (lowerStr (g.material.getD "")) "synthetic" <;>
        simp_all
    · rw [if_neg h2, if_neg h2]

/-- C10: in every terminal outcome, the returned `totalGenerated` equals the
length of the returned outfits list. -/
theorem totalGenerated_eq_length (now : Nat) (garments : List Garment)
    (input : RecommendationInput) :
    (generateOutfits now garments input).totalGenerated
      = (generateOutfits now garments input).outfits.length := by
  rw [generateOutfits_eq]
  split
  · rfl
  · split
    · rfl
    · split
      · rfl
      · rfl

/-- C7 counterexample: an unknown weather value does not skip the
season/weather check; it rejects every garment whose season is not
"all-season", so a wardrobe that yields an outfit without weather yields
none under the unknown weather value "apocalyptic". -/
theorem unknownWeather_cex :
    topG ∈ demoGarments
      ∧ isSeasonAppropriate topG.season "apocalyptic" none = false
      ∧ filterByContext demoGarments inpUnknownWeather = [bottomG]
      ∧ (generateOutfits 0 demoGarments inpUnknownWeather).outfits = []
      ∧ (generateOutfits 0 demoGarments inpPlain).outfits ≠ [] := by decide

/-- C7 (amended): an unknown mood value contributes no mood-alignment and no
occasion-matching score, but an unknown weather value makes the season check
decide by the "all-season" test alone, rejecting every other garment rather
than passing all of them. -/
theorem unknownSignals_amended (m w season : String) (garments : List Garment)
    (t : Option Int) (hm : m ∉ knownMoods) (hw : w ∉ knownWeathers) :
    scoreMoodAlignment garments m = 0
      ∧ scoreOccasionMatching garments m = 0
      ∧ isSeasonAppropriate season w t = (season == "all-season") := by
  refine ⟨scoreMoodAlignment_unknown garments m hm,
    scoreOccasionMatching_unknown garments m hm, ?_⟩
  unfold isSeasonAppropriate
  rw [weatherSeasonMap_eq_none hw]
  cases h : (season == "all-season") <;> simp [h]

/-- Witness for `unknownSignals_amended` at the unknown mood "party" and the
unknown weather "apocalyptic". -/
theorem unknownSignals_amended_inst :
    scoreMoodAlignment demoGarments "party" = 0
      ∧ scoreOccasionMatching demoGarments "party" = 0
      ∧ isSeasonAppropriate "summer" "apocalyptic" none = ("summer" == "all-season") :=
  unknownSignals_amended "party" "apocalyptic" "summer" demoGarments none
    (by decide) (by decide)

/-- C8 counterexample: when the request carries no mood, the engine
substitutes "casual", so the final reason is the casual closing description,
not the generic fallback string. -/
theorem absentMood_closing_cex :
    inpPlain.mood = none
      ∧ (generateReasons [topG, bottomG] (effMood inpPlain)).getLast?
        = some "Perfect for a relaxed day"
      ∧ (generateOutfits 0 demoGarments inpPlain).outfits.map (fun o => o.explanation)
        = ["Perfect for a relaxed day"]
      ∧ "Perfect for a relaxed day" ≠ "Well-coordinated look" := by decide

/-- C8 (amended): the last reason is always the closing description of the
mood actually used (`input.mood || "casual"`): the fixed description for a
recognized mood (for "cozy" it is "Comfortable and warm"), the casual
description "Perfect for a relaxed day" when the mood is absent, and the
generic fallback only for an unrecognized non-empty mood. -/
theorem closingReason_amended (garments : List Garment)
    (input : RecommendationInput) :
    (∀ d : String, moodDescriptions (effMood input) = some d →
        (generateReasons garments (effMood input)).getLast? = some d)
      ∧ (moodDescriptions (effMood input) = none →
        (generateReasons garments (effMood input)).getLast?
          = some "Well-coordinated look")
      ∧ (input.mood = none →
        (generateReasons garments (effMood input)).getLast?
          = some "Perfect for a relaxed day")
      ∧ (input.mood = some "cozy" →
        (generateReasons garments (effMood input)).getLast?
          = some "Comfortable and warm") := by
  refine ⟨?_, ?_, ?_, ?_⟩
  · intro d hd; rw [generateReasons_getLast, hd]; rfl
  · intro hd; rw [generateReasons_getLast, hd]; rfl
  · intro hmood; rw [generateReasons_getLast]; unfold effMood; rw [hmood]; rfl
  · intro hmood; rw [generateReasons_getLast]; unfold effMood; rw [hmood]; rfl

/-- Witness for `closingReason_amended` at mood "cozy". -/
theorem closingReason_amended_inst :
    (generateReasons [topG, bottomG] (effMood inpCozy)).getLast?
      = some "Comfortable and warm" :=
  (closingReason_amended [topG, bottomG] inpCozy).2.2.2 rfl

/-- C3 counterexample: a wardrobe of only shoes survives the context filter,
but since no top+bottom pair exists the engine returns the below-threshold
"no high-quality combinations" explanation, not the filter-stage "no
suitable outfits" explanation the claim names. -/
theorem noTopBottom_message_cex :
    filterByContext [shoeOnly] inpPlain = [shoeOnly]
      ∧ (generateOutfits 0 [shoeOnly] inpPlain).outfits = []
      ∧ (generateOutfits 0 [shoeOnly] inpPlain).explanation
        = "No high-quality outfit combinations found. Try adjusting your mood, weather, or add more items to your closet."
      ∧ (generateOutfits 0 [shoeOnly] inpPlain).explanation
        ≠ "No suitable outfits found for the current weather and mood combination." := by
  decide

/-- C3 (amended): when the filter survivors contain no top or no bottom, the
result is empty with the below-threshold "no high-quality combinations"
explanation — the same outcome as when no candidate meets the threshold, and
distinct from both the empty-wardrobe and the filter-stage explanations. -/
theorem noTopBottom_empty_amended (now : Nat) (garments : List Garment)
    (input : RecommendationInput) (hg : garments ≠ [])
    (hf : filterByContext garments input ≠ [])
    (htb : categoryGroup (filterByContext garments input) "tops" = []
      ∨ categoryGroup (filterByContext garments input) "bottoms" = []) :
    generateOutfits now garments input =
      { outfits := [],
        explanation := "No high-quality outfit combinations found. Try adjusting your mood, weather, or add more items to your closet.",
        totalGenerated := 0 } := by
  have hcand :
      generateCandidates (filterByContext garments input) (effMood input) = [] := by
    unfold generateCandidates
    rcases htb with h | h <;> simp [h]
  have h1 : ¬ (garments.length == 0) = true := by
    simpa [List.length_eq_zero] using hg
  have h2 : ¬ ((filterByContext garments input).length == 0) = true := by
    simpa [List.length_eq_zero] using hf
  have h3 : ((rankCandidates
      (generateCandidates (filterByContext garments input) (effMood input))
      (effLimit input)).length == 0) = true := by
    rw [hcand]; simp [rankCandidates, sortCandidates, List.insertionSort]
  rw [generateOutfits_eq, if_neg h1, if_neg h2, if_pos h3]

/-- Witness for `noTopBottom_empty_amended` at the shoes-only wardrobe. -/
theorem noTopBottom_empty_amended_inst :
    generateOutfits 0 [shoeOnly] inpPlain =
      { outfits := [],
        explanation := "No high-quality outfit combinations found. Try adjusting your mood, weather, or add more items to your closet.",
        totalGenerated := 0 } :=
  noTopBottom_empty_amended 0 [shoeOnly] inpPlain (by decide) (by decide)
    (Or.inl (by decide))

theorem length_flatMap_const {α β : Type} (l : List α) (f : α → List β) (k : Nat)
    (h : ∀ a ∈ l, (f a).length = k) : (l.flatMap f).length = l.length * k := by
  induction l with
  | nil => simp
  | cons a l ih =>
    simp only [List.flatMap_cons, List.length_append, List.length_cons]
    rw [h a (List.mem_cons_self a l), ih fun x hx => h x (List.mem_cons_of_mem a hx)]
    ring

theorem candidatesForPair_length (garments shoes accessories : List Garment)
    (top bottom : Garment) (mood : String) :
    (candidatesForPair garments shoes accessories top bottom mood).length
      = max shoes.length 1 + min accessories.length 2 := by
  unfold candidatesForPair
  cases shoes with
  | nil =>
    simp [List.length_take]
    omega
  | cons s ss =>
    have hmax : max (s :: ss).length 1 = (s :: ss).length :=
      Nat.max_eq_left (by simp)
    simp [hmax, List.length_take]
    omega

/-- C5: with at least one top and one bottom among the (filtered) garments,
the generator produces exactly
tops * bottoms * (max(shoes, 1) + min(accessories, 2)) candidates: per
(top, bottom) pair one candidate per shoe or a single shoe-less variant, plus
one variant per accessory among the first two. -/
theorem generateCandidates_count (garments : List Garment) (mood : String)
    (ht : categoryGroup garments "tops" ≠ [])
    (hb : categoryGroup garments "bottoms" ≠ []) :
    (generateCandidates garments mood).length
      = (categoryGroup garments "tops").length
          * (categoryGroup garments "bottoms").length
          * (max (categoryGroup garments "shoes").length 1
            + min (categoryGroup garments "accessories").length 2) := by
  have hcond : ((categoryGroup garments "tops").length == 0
      || (categoryGroup garments "bottoms").length == 0) = false := by
    simp [List.length_eq_zero]
    exact ⟨ht, hb⟩
  simp only [generateCandidates, hcond, Bool.false_eq_true, if_false]
  rw [length_flatMap_const _ _
    ((categoryGroup garments "bottoms").length
      * (max (categoryGroup garments "shoes").length 1
        + min (categoryGroup garments "accessories").length 2))
    (fun top _ => length_flatMap_const _ _ _
      (fun bottom _ => candidatesForPair_length garments _ _ top bottom mood))]
  ring

/-- Witness for `generateCandidates_count` at the two-item wardrobe. -/
theorem generateCandidates_count_inst :
    (generateCandidates demoGarments "casual").length
      = (categoryGroup demoGarments "tops").length
          * (categoryGroup demoGarments "bottoms").length
          * (max (categoryGroup demoGarments "shoes").length 1
            + min (categoryGroup demoGarments "accessories").length 2) :=
  generateCandidates_count demoGarments "casual" (by decide) (by decide)

/-- C9: the timestamp parameter influences only the outfit id and createdAt
fields: for any two timestamps the results agree on everything else —
outfits with id and createdAt erased, per-outfit scores, per-outfit
explanations, the top-level explanation, and totalGenerated. -/
theorem generateOutfits_deterministic (n1 n2 : Nat) (garments : List Garment)
    (input : RecommendationInput) :
    (generateOutfits n1 garments input).outfits.map eraseStamp
        = (generateOutfits n2 garments input).outfits.map eraseStamp
      ∧ (generateOutfits n1 garments input).outfits.map (fun o => o.score)
        = (generateOutfits n2 garments input).outfits.map (fun o => o.score)
      ∧ (generateOutfits n1 garments input).outfits.map (fun o => o.explanation)
        = (generateOutfits n2 garments input).outfits.map (fun o => o.explanation)
      ∧ (generateOutfits n1 garments input).explanation
        = (generateOutfits n2 garments input).explanation
      ∧ (generateOutfits n1 garments input).totalGenerated
        = (generateOutfits n2 garments input).totalGenerated := by
  rw [generateOutfits_eq n1, generateOutfits_eq n2]
  by_cases h1 : (garments.length == 0) = true
  · simp [h1]
  rw [if_neg h1, if_neg h1]
  by_cases h2 : ((filterByContext garments input).length == 0) = true
  · simp [h2]
  rw [if_neg h2, if_neg h2]
  by_cases h3 : ((rankCandidates
      (generateCandidates (filterByContext garments input) (effMood input))
      (effLimit input)).length == 0) = true
  · simp [h3]
  rw [if_neg h3, if_neg h3]
  refine ⟨stampOutfits_eraseStamp n1 n2 input 0 0 _, ?_, ?_, rfl, ?_⟩
  · rw [stampOutfits_map_score, stampOutfits_map_score]
  · rw [stampOutfits_map_explanation, stampOutfits_map_explanation]
  · rw [stampOutfits_length, stampOutfits_length]

/-- C1: past the empty-wardrobe and empty-filter outcomes, and for a
validated limit (never the falsy 0), the returned outfits are exactly the
generated candidates sorted descending by score, with sub-60 candidates
removed, truncated to the requested limit (6 when none is given);
consequently every returned outfit scores at least 60, scores are
non-increasing, and at most limit outfits are returned. -/
theorem generateOutfits_ranked (now : Nat) (garments : List Garment)
    (input : RecommendationInput) (hg : garments ≠ [])
    (hf : filterByContext garments input ≠ [])
    (h0 : input.limitCount ≠ some 0) :
    ((generateOutfits now garments input).outfits.map fun o => (o.garmentIds, o.score))
        = (rankCandidates
            (generateCandidates (filterByContext garments input) (effMood input))
            (match input.limitCount with | some k => k | none => 6)).map
            (fun c => (c.garmentIds, c.score))
      ∧ (∀ o ∈ (generateOutfits now garments input).outfits, 60 ≤ o.score)
      ∧ List.Pairwise (fun o o' => o'.score ≤ o.score)
          (generateOutfits now garments input).outfits
      ∧ (generateOutfits now garments input).outfits.length
        ≤ (match input.limitCount with | some k => k | none => 6) := by
  have hlim : effLimit input
      = (match input.limitCount with | some k => k | none => 6) := by
    unfold effLimit
    cases hk : input.limitCount with
    | none => rfl
    | some k =>
      have hk0 : k ≠ 0 := fun h => h0 (by rw [hk, h])
      simp [hk0]
  have h1 : ¬ (garments.length == 0) = true := by
    simpa [List.length_eq_zero] using hg
  have h2 : ¬ ((filterByContext garments input).length == 0) = true := by
    simpa [List.length_eq_zero] using hf
  rw [generateOutfits_eq, if_neg h1, if_neg h2, ← hlim]
  by_cases h3 : ((rankCandidates
      (generateCandidates (filterByContext garments input) (effMood input))
      (effLimit input)).length == 0) = true
  · have hempty : rankCandidates
        (generateCandidates (filterByContext garments input) (effMood input))
        (effLimit input) = [] := by
      simpa using h3
    rw [if_pos h3]
    refine ⟨by simp [hempty], ?_, by simp, by simp⟩
    intro o ho
    simp at ho
  · rw [if_neg h3]
    refine ⟨stampOutfits_map_core now input 0 _, ?_, ?_, ?_⟩
    · intro o ho
      obtain ⟨c, hc, _, hs⟩ := stampOutfits_mem now input 0 _ o ho
      rw [hs]
      exact rankCandidates_score_ge _ _ c hc
    · have hp := rankCandidates_pairwise
        (generateCandidates (filterByContext garments input) (effMood input))
        (effLimit input)
      have hmap := stampOutfits_map_score now input 0
        (rankCandidates
          (generateCandidates (filterByContext garments input) (effMood input))
          (effLimit input))
      have hpw : List.Pairwise (fun a b : Nat => b ≤ a)
          ((stampOutfits now input 0 (rankCandidates
            (generateCandidates (filterByContext garments input) (effMood input))
            (effLimit input))).map fun o => o.score) := by
        rw [hmap]
        exact List.pairwise_map.mpr hp
      exact List.pairwise_map.mp hpw
    · rw [show ((RecommendationOutput.mk (stampOutfits now input 0 (rankCandidates
          (generateCandidates (filterByContext garments input) (effMood input))
          (effLimit input))) (generateExplanation input)
          (stampOutfits now input 0 (rankCandidates
            (generateCandidates (filterByContext garments input) (effMood input))
            (effLimit input))).length).outfits) = stampOutfits now input 0
              (rankCandidates (generateCandidates (filterByContext garments input)
                (effMood input)) (effLimit input)) from rfl,
        stampOutfits_length]
      exact rankCandidates_length_le _ _

/-- Witness for `generateOutfits_ranked` at the two-item wardrobe with no
contextual signals. -/
theorem generateOutfits_ranked_inst :
    ((generateOutfits 0 demoGarments inpPlain).outfits.map
        fun o => (o.garmentIds, o.score))
        = (rankCandidates
            (generateCandidates (filterByContext demoGarments inpPlain)
              (effMood inpPlain))
            (match inpPlain.limitCount with | some k => k | none => 6)).map
            (fun c => (c.garmentIds, c.score))
      ∧ (∀ o ∈ (generateOutfits 0 demoGarments inpPlain).outfits, 60 ≤ o.score)
      ∧ List.Pairwise (fun o o' => o'.score ≤ o.score)
          (generateOutfits 0 demoGarments inpPlain).outfits
      ∧ (generateOutfits 0 demoGarments inpPlain).outfits.length
        ≤ (match inpPlain.limitCount with | some k => k | none => 6) :=
  generateOutfits_ranked 0 demoGarments inpPlain (by decide) (by decide) (by decide)

theorem generateCandidates_shape (garments : List Garment) (mood : String)
    (c : OutfitCandidate) (hc : c ∈ generateCandidates garments mood) :
    ∃ t, t ∈ garments ∧ t.category = "tops"
      ∧ ∃ b, b ∈ garments ∧ b.category = "bottoms"
      ∧ (c.garmentIds = [t.id, b.id]
        ∨ (∃ s, s ∈ garments ∧ s.category = "shoes"
            ∧ c.garmentIds = [t.id, b.id, s.id])
        ∨ (∃ s a, s ∈ garments ∧ s.category = "shoes"
            ∧ a ∈ garments ∧ a.category = "accessories"
            ∧ c.garmentIds = [t.id, b.id, s.id, a.id])
        ∨ (∃ a, a ∈ garments ∧ a.category = "accessories"
            ∧ c.garmentIds = [t.id, b.id, a.id])) := by
  simp only [generateCandidates] at hc
  by_cases hguard : ((categoryGroup garments "tops").length == 0
      || (categoryGroup garments "bottoms").length == 0) = true
  · rw [if_pos hguard] at hc
    cases hc
  · rw [if_neg hguard] at hc
    rw [List.mem_flatMap] at hc
    obtain ⟨top, htop, hc⟩ := hc
    rw [List.mem_flatMap] at hc
    obtain ⟨bottom, hbot, hc⟩ := hc
    obtain ⟨htg, htc⟩ := mem_categoryGroup.mp htop
    obtain ⟨hbg, hbc⟩ := mem_categoryGroup.mp hbot
    refine ⟨top, htg, htc, bottom, hbg, hbc, ?_⟩
    simp only [candidatesForPair] at hc
    rw [List.mem_append] at hc
    rcases hc with hc | hc
    · rw [List.mem_map] at hc
      obtain ⟨shoe, hshoe, hceq⟩ := hc
      by_cases hempty : ((categoryGroup garments "shoes").length == 0) = true
      · rw [if_pos hempty] at hshoe
        have hbf : shoe = barefootShoe := by simpa using hshoe
        subst hbf
        left
        rw [← hceq]
        simp [barefootShoe]
      · rw [if_neg hempty] at hshoe
        obtain ⟨hsg, hsc⟩ := mem_categoryGroup.mp hshoe
        by_cases hbf : (shoe.id == "barefoot") = true
        · left
          rw [← hceq]
          simp [hbf]
        · right; left
          refine ⟨shoe, hsg, hsc, ?_⟩
          rw [← hceq]
          simp [hbf]
    · rw [List.mem_map] at hc
      obtain ⟨acc, hacc, hceq⟩ := hc
      have haccmem : acc ∈ categoryGroup garments "accessories" :=
        (List.take_sublist 2 _).mem hacc
      obtain ⟨hag, hac⟩ := mem_categoryGroup.mp haccmem
      cases hsh : categoryGroup garments "shoes" with
      | nil =>
        right; right; right
        refine ⟨acc, hag, hac, ?_⟩
        rw [← hceq, hsh]
        rfl
      | cons s0 ss =>
        right; right; left
        have hs0 : s0 ∈ categoryGroup garments "shoes" := by
          rw [hsh]; exact List.mem_cons_self _ _
        obtain ⟨hsg, hsc⟩ := mem_categoryGroup.mp hs0
        refine ⟨s0, acc, hsg, hsc, hag, hac, ?_⟩
        rw [← hceq, hsh]
        rfl

/-- C6: every returned outfit references only garments from the original
input, in the order top, bottom, optional shoe, optional accessory (so
exactly one top, one bottom, at most one shoe, at most one accessory); every
listed id is the id of an input garment, so when no input garment is named
"barefoot" the placeholder id never appears. -/
theorem generateOutfits_composition (now : Nat) (garments : List Garment)
    (input : RecommendationInput) :
    ∀ o ∈ (generateOutfits now garments input).outfits,
      (∃ t, t ∈ garments ∧ t.category = "tops"
        ∧ ∃ b, b ∈ garments ∧ b.category = "bottoms"
        ∧ (o.garmentIds = [t.id, b.id]
          ∨ (∃ s, s ∈ garments ∧ s.category = "shoes"
              ∧ o.garmentIds = [t.id, b.id, s.id])
          ∨ (∃ s a, s ∈ garments ∧ s.category = "shoes"
              ∧ a ∈ garments ∧ a.category = "accessories"
              ∧ o.garmentIds = [t.id, b.id, s.id, a.id])
          ∨ (∃ a, a ∈ garments ∧ a.category = "accessories"
              ∧ o.garmentIds = [t.id, b.id, a.id])))
      ∧ (∀ i ∈ o.garmentIds, ∃ g, g ∈ garments ∧ g.id = i)
      ∧ ((∀ g ∈ garments, g.id ≠ "barefoot") → "barefoot" ∉ o.garmentIds) := by
  intro o ho
  rw [generateOutfits_eq] at ho
  by_cases h1 : (garments.length == 0) = true
  · rw [if_pos h1] at ho
    simp at ho
  rw [if_neg h1] at ho
  by_cases h2 : ((filterByContext garments input).length == 0) = true
  · rw [if_pos h2] at ho
    simp at ho
  rw [if_neg h2] at ho
  by_cases h3 : ((rankCandidates
      (generateCandidates (filterByContext garments input) (effMood input))
      (effLimit input)).length == 0) = true
  · rw [if_pos h3] at ho
    simp at ho
  rw [if_neg h3] at ho
  obtain ⟨c, hcr, hgid, _⟩ := stampOutfits_mem now input 0 _ o ho
  have hcc : c ∈ generateCandidates (filterByContext garments input) (effMood input) :=
    rankCandidates_mem _ _ c hcr
  obtain ⟨t, htg, htc, b, hbg, hbc, hdis⟩ := generateCandidates_shape _ _ c hcc
  have htg' : t ∈ garments := mem_filterByContext htg
  have hbg' : b ∈ garments := mem_filterByContext hbg
  rw [hgid]
  have hpart2 : ∀ i ∈ c.garmentIds, ∃ g, g ∈ garments ∧ g.id = i := by
    rcases hdis with h | ⟨s, hs, _, h⟩ | ⟨s, a, hs, _, ha, _, h⟩ | ⟨a, ha, _, h⟩ <;>
      rw [h] <;> intro i hi <;> simp at hi
    · rcases hi with rfl | rfl
      exacts [⟨t, htg', rfl⟩, ⟨b, hbg', rfl⟩]
    · rcases hi with rfl | rfl | rfl
      exacts [⟨t, htg', rfl⟩, ⟨b, hbg', rfl⟩, ⟨s, mem_filterByContext hs, rfl⟩]
    · rcases hi with rfl | rfl | rfl | rfl
      exacts [⟨t, htg', rfl⟩, ⟨b, hbg', rfl⟩, ⟨s, mem_filterByContext hs, rfl⟩,
        ⟨a, mem_filterByContext ha, rfl⟩]
    · rcases hi with rfl | rfl | rfl
      exacts [⟨t, htg', rfl⟩, ⟨b, hbg', rfl⟩, ⟨a, mem_filterByContext ha, rfl⟩]
  refine ⟨⟨t, htg', htc, b, hbg', hbc, ?_⟩, hpart2, ?_⟩
  · rcases hdis with h | ⟨s, hs, hsc, h⟩ | ⟨s, a, hs, hsc, ha, hac, h⟩ | ⟨a, ha, hac, h⟩
    · exact Or.inl h
    · exact Or.inr (Or.inl ⟨s, mem_filterByContext hs, hsc, h⟩)
    · exact Or.inr (Or.inr (Or.inl
        ⟨s, a, mem_filterByContext hs, hsc, mem_filterByContext ha, hac, h⟩))
    · exact Or.inr (Or.inr (Or.inr ⟨a, mem_filterByContext ha, hac, h⟩))
  · intro hnb hin
    obtain ⟨g, hg, hgi⟩ := hpart2 "barefoot" hin
    exact hnb g hg hgi

/-- The single outfit the engine returns for the two-item wardrobe with no
contextual signals and timestamp 0. -/
def demoOutfit : Outfit :=
  { id := "outfit-0-0", userId := "u", garmentIds := ["t1", "b1"],
    contextWeather := none, contextMood := none,
    explanation := "Perfect for a relaxed day", score := 75, createdAt := 0 }

/-- Witness for `generateOutfits_composition` at the outfit returned for the
two-item wardrobe. -/
theorem generateOutfits_composition_inst :
    (∃ t, t ∈ demoGarments ∧ t.category = "tops"
      ∧ ∃ b, b ∈ demoGarments ∧ b.category = "bottoms"
      ∧ (demoOutfit.garmentIds = [t.id, b.id]
        ∨ (∃ s, s ∈ demoGarments ∧ s.category = "shoes"
            ∧ demoOutfit.garmentIds = [t.id, b.id, s.id])
        ∨ (∃ s a, s ∈ demoGarments ∧ s.category = "shoes"
            ∧ a ∈ demoGarments ∧ a.category = "accessories"
            ∧ demoOutfit.garmentIds = [t.id, b.id, s.id, a.id])
        ∨ (∃ a, a ∈ demoGarments ∧ a.category = "accessories"
            ∧ demoOutfit.garmentIds = [t.id, b.id, a.id])))
      ∧ (∀ i ∈ demoOutfit.garmentIds, ∃ g, g ∈ demoGarments ∧ g.id = i)
      ∧ ((∀ g ∈ demoGarments, g.id ≠ "barefoot") → "barefoot" ∉ demoOutfit.garmentIds) :=
  generateOutfits_composition 0 demoGarments inpPlain demoOutfit (by decide)
